import Mathlib

/-!
Shallow embedding of the document-processing pipeline of
`backend/routes/documents.js` (AI expense tracker).

The orchestrator `processDocumentWithAI(document, userId)` runs, inside a
single try/catch:
  1. provider selection (`process.env.GEMINI_API_KEY ? 'gemini' : 'openai'`),
  2. extraction (`processDocument`, external service),
  3. document finalize (`status = 'processed'`, `document.save()`),
  4. transaction creation (`new Transaction(...)`, `transaction.save()`),
  5. history fetch (`Transaction.find({ user: userId }).limit(100)`),
  6. anomaly scoring (`detectAnomalies`, external service),
  7. conditional anomaly persistence.
The catch sets `document.status = 'failed'`, `document.extractedData =
{ error: error.message }` and saves.

External calls (extraction, saves, DB find, scoring) are modelled by an
environment `PipelineEnv` that fixes each call's outcome (`Except String _`:
`.error m` is a rejected promise with message `m`).  Persisted state is a
`RunState`: the persisted document record, the transaction and anomaly
stores (Lists, in insertion order — MongoDB natural order), the history
window handed to the scorer, and a trace of persistence events used for
ordering properties.
-/

namespace ExpenseTracker

/-- Lifecycle `status` of a Document: `'processing' | 'processed' | 'failed'`. -/
inductive DocStatus
  | processing
  | processed
  | failed
  deriving DecidableEq, Repr

/-- The document's `extractedData` field: `{ text, aiProvider, description }`
on success (line 230 of the route), `{ error: message }` on failure (line 282). -/
inductive ExtractedPayload
  | success (text : String) (aiProvider : String) (description : String)
  | failure (error : String)
  deriving DecidableEq, Repr

/-- Persisted Document record (the fields the route reads and writes). -/
structure Document where
  id : Nat
  user : Nat
  originalName : String
  fileName : String
  filePath : String
  mimeType : String
  merchant : Option String
  category : Option String
  amount : Option ℚ
  currency : Option String
  transactionDate : Option Nat
  extractedData : Option ExtractedPayload
  status : DocStatus
  deriving DecidableEq, Repr

/-- Persisted Transaction record, with the fields set at lines 239–250 of the
route.  `document` is the nullable back-reference to the originating Document. -/
structure Transaction where
  id : Nat
  user : Nat
  merchant : String
  amount : ℚ
  currency : String
  category : String
  type : String
  date : Nat
  description : String
  document : Option Nat
  status : String
  deriving DecidableEq, Repr

/-- Persisted Anomaly record, with the fields set at lines 261–273 of the
route (metadata fields inlined). -/
structure Anomaly where
  user : Nat
  transaction : Nat
  type : String
  severity : String
  description : String
  status : String
  riskScore : ℚ
  recommendation : String
  aiProvider : String
  deriving DecidableEq, Repr

/-- Modelled from the spec: the structured result of the Extraction Provider
(`processDocument` in `services/aiService`, a file not present in the sources).
The fields are exactly those the route reads from it at lines 225–247:
merchant, category, amount, currency, transactionDate, optional type,
extractedText, description, aiProvider. -/
structure ExtractedData where
  merchant : String
  category : String
  amount : ℚ
  currency : String
  transactionDate : Nat
  type : Option String
  extractedText : String
  description : String
  aiProvider : String
  deriving DecidableEq, Repr

/-- Modelled from the spec: the Anomaly Scorer's verdict (`detectAnomalies` in
`services/aiService`, not present in the sources): `{ isAnomaly, riskScore,
reason, recommendation }`.  The route also tolerates a null/absent result
(`anomalyResult && anomalyResult.isAnomaly`), modelled as `Option AnomalyResult`. -/
structure AnomalyResult where
  isAnomaly : Bool
  riskScore : ℚ
  reason : String
  recommendation : String
  deriving DecidableEq, Repr

/-- Persistence events, in the order they are awaited by the pipeline. -/
inductive Event
  | docSave (status : DocStatus)
  | txSave
  | historyFetch
  | anomalySave
  deriving DecidableEq, Repr

/-- Outcomes of every external call one run of the pipeline makes.
`Except.error m` models the awaited promise rejecting with message `m`. -/
structure PipelineEnv where
  geminiApiKey : Option String
  processDocument : Except String ExtractedData
  docSave : Except String Unit
  txSave : Except String Unit
  findTransactions : Except String Unit
  detectAnomalies : Except String (Option AnomalyResult)
  anomalySave : Except String Unit
  failSave : Except String Unit

/-- State threaded through one run: the in-memory mongoose document
(`docMem`), its last persisted image (`docDb`), the transaction and anomaly
stores in insertion order, the history window passed to the scorer, and the
trace of successful persistence events. -/
structure RunState where
  docMem : Document
  docDb : Document
  transactions : List Transaction
  anomalies : List Anomaly
  history : Option (List Transaction)
  trace : List Event

/-- JS truthiness of an (optional, string-valued) environment variable:
`undefined` and the empty string are falsy. -/
def jsTruthy : Option String → Bool
  | none => false
  | some s => s != ""

/-- JS `a || b` on an optional string `a`: `undefined` and `""` are falsy. -/
def jsOrString : Option String → String → String
  | none, d => d
  | some s, d => if s = "" then d else s

/-- Whether a modelled call rejects. -/
def isErr {α : Type} : Except String α → Bool
  | .error _ => true
  | .ok _ => false

/-- Line 265 of the route: severity assigned to an anomaly,
`riskScore > 0.7 ? 'high' : riskScore > 0.4 ? 'medium' : 'low'`. -/
def severityOf (riskScore : ℚ) : String :=
  if riskScore > 7/10 then "high" else if riskScore > 4/10 then "medium" else "low"

/-- Line 254 of the route: `Transaction.find({ user: userId }).limit(100)` —
filter the store by user and return the first 100 matches in store (natural)
order; no sort and no exclusion clause. -/
def findUserLimit100 (store : List Transaction) (userId : Nat) : List Transaction :=
  (store.filter (fun t => t.user == userId)).take 100

/-- Lines 239–250: the candidate Transaction built from the extracted data.
Its id is fresh with respect to the store. -/
def mkTransaction (s : RunState) (userId : Nat) (ed : ExtractedData) : Transaction :=
  { id := s.transactions.length
    user := userId
    merchant := ed.merchant
    amount := ed.amount
    currency := ed.currency
    category := ed.category
    type := jsOrString ed.type "expense"
    date := ed.transactionDate
    description := ed.description
    document := some s.docMem.id
    status := "completed" }

/-- Lines 261–273: the Anomaly built from a positive scorer verdict. -/
def mkAnomaly (userId : Nat) (txId : Nat) (r : AnomalyResult) (aiProvider : String) :
    Anomaly :=
  { user := userId
    transaction := txId
    type := "unusual_amount"
    severity := severityOf r.riskScore
    description := r.reason
    status := "new"
    riskScore := r.riskScore
    recommendation := r.recommendation
    aiProvider := aiProvider }

/-- The awaited `document.save()`: persist the in-memory document and record
the event. -/
def saveDocument (s : RunState) : RunState :=
  { s with docDb := s.docMem, trace := s.trace ++ [Event.docSave s.docMem.status] }

/-- The body of the `try` block of `processDocumentWithAI` (lines 213–278):
stages run strictly in order; the first rejected call aborts the rest and the
pair's second component carries its error message. -/
def tryBody (env : PipelineEnv) (userId : Nat) (s : RunState) :
    RunState × Option String :=
  let aiProvider := if jsTruthy env.geminiApiKey then "gemini" else "openai"
  match env.processDocument with
  | .error m => (s, some m)
  | .ok ed =>
    let s :=
      { s with docMem :=
        { s.docMem with
          merchant := some ed.merchant
          category := some ed.category
          amount := some ed.amount
          currency := some ed.currency
          transactionDate := some ed.transactionDate
          extractedData :=
            some (ExtractedPayload.success ed.extractedText ed.aiProvider ed.description)
          status := DocStatus.processed } }
    match env.docSave with
    | .error m => (s, some m)
    | .ok _ =>
      let s := saveDocument s
      let transaction := mkTransaction s userId ed
      match env.txSave with
      | .error m => (s, some m)
      | .ok _ =>
        let s :=
          { s with
            transactions := s.transactions ++ [transaction]
            trace := s.trace ++ [Event.txSave] }
        match env.findTransactions with
        | .error m => (s, some m)
        | .ok _ =>
          let userTransactions := findUserLimit100 s.transactions userId
          let s :=
            { s with
              history := some userTransactions
              trace := s.trace ++ [Event.historyFetch] }
          match env.detectAnomalies with
          | .error m => (s, some m)
          | .ok anomalyResult =>
            match anomalyResult with
            | none => (s, none)
            | some r =>
              if r.isAnomaly then
                let anomaly := mkAnomaly userId transaction.id r aiProvider
                match env.anomalySave with
                | .error m => (s, some m)
                | .ok _ =>
                  ({ s with
                     anomalies := s.anomalies ++ [anomaly]
                     trace := s.trace ++ [Event.anomalySave] }, none)
              else (s, none)

/-- Lines 212–285, `processDocumentWithAI`: the try body wrapped in the
single catch; the catch sets `status = failed` and `extractedData = { error }`
on the in-memory document and saves it.  The second component is the error the
returned promise rejects with, if any: `none` unless the catch-block save
itself rejects. -/
def processDocumentWithAI (env : PipelineEnv) (userId : Nat) (s : RunState) :
    RunState × Option String :=
  match tryBody env userId s with
  | (s', none) => (s', none)
  | (s', some m) =>
    let s' :=
      { s' with docMem :=
        { s'.docMem with
          status := DocStatus.failed
          extractedData := some (ExtractedPayload.failure m) } }
    match env.failSave with
    | .error m2 => (s', some m2)
    | .ok _ => (saveDocument s', none)

/-- Line 193 of the route: the background invocation
`processDocumentWithAI(document, req.userId).catch(err => console.error(...))`
— any rejection is swallowed, only persisted state remains observable. -/
def backgroundProcess (env : PipelineEnv) (userId : Nat) (s : RunState) : RunState :=
  (processDocumentWithAI env userId s).1

/-- Lines 180–190: the Document record created by the upload route,
in status `processing` with no extracted fields. -/
def initialDoc (docId userId : Nat)
    (originalName fileName filePath mimeType : String) : Document :=
  { id := docId
    user := userId
    originalName := originalName
    fileName := fileName
    filePath := filePath
    mimeType := mimeType
    merchant := none
    category := none
    amount := none
    currency := none
    transactionDate := none
    extractedData := none
    status := DocStatus.processing }

/-- A run's starting state: a freshly created document, the pre-existing
transaction and anomaly stores, empty trace. -/
def initialState (doc : Document) (priorTxns : List Transaction)
    (priorAnomalies : List Anomaly) : RunState :=
  { docMem := doc
    docDb := doc
    transactions := priorTxns
    anomalies := priorAnomalies
    history := none
    trace := [] }

/-- The document-save statuses recorded in a trace, in order. -/
def docSaves (trace : List Event) : List DocStatus :=
  trace.filterMap (fun e =>
    match e with
    | Event.docSave st => some st
    | _ => none)

/-! ## The deletion route (lines 288–327) -/

/-- Outcomes of the external calls made by `router.delete` for one request:
the owner-scoped `Document.findOne`, the Cloudinary `destroy` call, and the
database `deleteOne`. -/
structure DeleteEnv where
  findOne : Option Document
  destroyBlob : Except String Unit
  deleteOne : Except String Unit

/-- The HTTP response of the deletion route: status code and `success` flag. -/
structure HttpResult where
  status : Nat
  success : Bool
  deriving DecidableEq, Repr

/-- The delete route on a document id: 404 when `findOne` misses; otherwise a
best-effort Cloudinary destroy (attempted when `fileName` is truthy, its error
caught and only logged), then `document.deleteOne()`.  Returns the HTTP result,
whether the Document record was removed, and whether the blob was removed. -/
def deleteRoute (env : DeleteEnv) : HttpResult × Bool × Bool :=
  match env.findOne with
  | none => ({ status := 404, success := false }, false, false)
  | some doc =>
    let blobDeleted :=
      if doc.fileName != "" then
        let _resourceType :=
          if doc.mimeType = "application/pdf" ∨ (doc.mimeType.splitOn "application").length > 1
          then "raw" else "image"
        match env.destroyBlob with
        | .ok _ => true
        | .error _ => false
      else false
    match env.deleteOne with
    | .error _ => ({ status := 500, success := false }, false, blobDeleted)
    | .ok _ => ({ status := 200, success := true }, true, blobDeleted)

/-! ## Concrete fixtures used by witnesses and counterexamples -/

/-- A freshly uploaded document (id 1, user 7). -/
def doc0 : Document := initialDoc 1 7 "receipt.png" "fid123" "https://res.example/receipt.png" "image/png"

/-- A run starting with empty transaction and anomaly stores. -/
def state0 : RunState := initialState doc0 [] []

/-- A successful extraction result (no transaction type supplied). -/
def edSample : ExtractedData :=
  { merchant := "Acme Co"
    category := "Office"
    amount := 42
    currency := "USD"
    transactionDate := 20240101
    type := none
    extractedText := "Acme Co receipt"
    description := "Office supplies"
    aiProvider := "gemini" }

/-- A positive scorer verdict with a high risk score. -/
def resultPositive : AnomalyResult :=
  { isAnomaly := true
    riskScore := 17/20
    reason := "amount unusually high"
    recommendation := "review this transaction" }

/-- An environment in which every external call succeeds and the scorer
returns a positive verdict. -/
def envPositive : PipelineEnv :=
  { geminiApiKey := some "key"
    processDocument := .ok edSample
    docSave := .ok ()
    txSave := .ok ()
    findTransactions := .ok ()
    detectAnomalies := .ok (some resultPositive)
    anomalySave := .ok ()
    failSave := .ok () }

/-- An environment in which the extraction call rejects. -/
def envExtractFail : PipelineEnv :=
  { envPositive with processDocument := .error "extraction failed" }

/-- An environment in which everything up to and including the transaction
save succeeds and then the anomaly scorer rejects. -/
def envScoreFail : PipelineEnv :=
  { envPositive with detectAnomalies := .error "scorer down" }

/-- An environment in which every call succeeds and the scorer returns a
null/absent result. -/
def envNullVerdict : PipelineEnv :=
  { envPositive with detectAnomalies := .ok none }

/-- An extraction result whose `type` field is the empty string (a supplied
but falsy value). -/
def edEmptyType : ExtractedData :=
  { edSample with type := some "" }

/-- An all-success environment whose extraction supplies the empty-string
transaction type. -/
def envEmptyType : PipelineEnv :=
  { envPositive with processDocument := .ok edEmptyType }

/-- A pre-existing transaction of user 7 (insertion index `i`). -/
def priorTx (i : Nat) : Transaction :=
  { id := i
    user := 7
    merchant := "old merchant"
    amount := 5
    currency := "USD"
    category := "misc"
    type := "expense"
    date := i
    description := ""
    document := none
    status := "completed" }

/-- A store of 100 pre-existing transactions of user 7, in insertion order. -/
def priors100 : List Transaction := (List.range 100).map priorTx

/-- A run over a store that already holds 100 transactions of user 7. -/
def stateMany : RunState := initialState doc0 priors100 []

/-- Modelled from the spec: the window of "the user's most recent
Transactions", bounded by `n` — the last `n` matching records in insertion
order (the Document/Transaction stores are kept in insertion order, so
recency is position).  This follows the spec's words, for comparison with
`findUserLimit100`, which is what the code runs. -/
def specMostRecentWindow (store : List Transaction) (userId : Nat) (n : Nat) :
    List Transaction :=
  (((store.filter (fun t => t.user == userId)).reverse).take n).reverse

/-- A deletion environment: the document is found, the Cloudinary destroy
call rejects, the database delete succeeds. -/
def delEnvBlobFail : DeleteEnv :=
  { findOne := some doc0
    destroyBlob := .error "cloud down"
    deleteOne := .ok () }

end ExpenseTracker

namespace ExpenseTracker

/-! ## Claims -/

/-- Claim C1: every error raised during the background pipeline (any stage of
the try block: provider selection, extraction, document finalize, transaction
creation, history fetch, scoring, or anomaly persistence) is caught at the
single orchestrator boundary: the Document's persisted status becomes `failed`
with the error's message stored in its extracted-payload field, and
`processDocumentWithAI` returns without raising (given that the catch-block
save itself succeeds). -/
theorem c1_failure_caught_at_boundary (env : PipelineEnv) (userId : Nat)
    (s : RunState) (m : String)
    (hfail : (tryBody env userId s).2 = some m)
    (hsave : env.failSave = .ok ()) :
    (processDocumentWithAI env userId s).2 = none ∧
    (processDocumentWithAI env userId s).1.docDb.status = DocStatus.failed ∧
    (processDocumentWithAI env userId s).1.docDb.extractedData =
      some (ExtractedPayload.failure m) := by
  rcases h : tryBody env userId s with ⟨s', e⟩
  rw [h] at hfail
  simp only at hfail
  subst hfail
  simp [processDocumentWithAI, h, hsave, saveDocument]

/-- Witness for C1 at a concrete failing environment. -/
theorem c1_failure_caught_at_boundary_witness :
    (tryBody envExtractFail 7 state0).2 = some "extraction failed" ∧
    ((processDocumentWithAI envExtractFail 7 state0).2 = none ∧
     (processDocumentWithAI envExtractFail 7 state0).1.docDb.status = DocStatus.failed ∧
     (processDocumentWithAI envExtractFail 7 state0).1.docDb.extractedData =
       some (ExtractedPayload.failure "extraction failed")) :=
  ⟨rfl, c1_failure_caught_at_boundary envExtractFail 7 state0 "extraction failed" rfl rfl⟩

/-- Claim C4: severity is a pure function of the risk score with strict
threshold ladder `risk > 0.7 → high`, `0.4 < risk ≤ 0.7 → medium`,
`risk ≤ 0.4 → low`; in particular `0.7 → medium` and `0.4 → low`. -/
theorem c4_severity_pure_thresholds (r : ℚ) :
    (r > 7/10 → severityOf r = "high") ∧
    (4/10 < r ∧ r ≤ 7/10 → severityOf r = "medium") ∧
    (r ≤ 4/10 → severityOf r = "low") ∧
    severityOf (7/10) = "medium" ∧ severityOf (4/10) = "low" := by
  unfold severityOf
  refine ⟨fun h => by rw [if_pos h], fun h => ?_, fun h => ?_, by norm_num, by norm_num⟩
  · rw [if_neg (by exact not_lt.mpr h.2), if_pos h.1]
  · rw [if_neg (by exact not_lt.mpr (h.trans (by norm_num))),
        if_neg (by exact not_lt.mpr h)]

/-- Witness for C4 at concrete risk scores. -/
theorem c4_severity_pure_thresholds_witness :
    ((3 : ℚ)/4 > 7/10 ∧ severityOf (3/4) = "high") ∧
    ((4 : ℚ)/10 < 11/20 ∧ (11 : ℚ)/20 ≤ 7/10 ∧ severityOf (11/20) = "medium") ∧
    ((1 : ℚ)/5 ≤ 4/10 ∧ severityOf (1/5) = "low") :=
  ⟨⟨by norm_num, (c4_severity_pure_thresholds (3/4)).1 (by norm_num)⟩,
   ⟨by norm_num, by norm_num,
     (c4_severity_pure_thresholds (11/20)).2.1 ⟨by norm_num, by norm_num⟩⟩,
   ⟨by norm_num, (c4_severity_pure_thresholds (1/5)).2.2.1 (by norm_num)⟩⟩

/-- Claim C9: when the owning user's deletion request finds the Document and
the database delete succeeds, a failing best-effort blob-deletion call does
not block or fail the deletion: the record is removed (and not the blob) and
the route responds 200 / success. -/
theorem c9_blob_failure_does_not_block_delete (env : DeleteEnv) (doc : Document)
    (m : String)
    (hfind : env.findOne = some doc)
    (hblob : env.destroyBlob = .error m)
    (hdb : env.deleteOne = .ok ()) :
    (deleteRoute env).1 = { status := 200, success := true } ∧
    (deleteRoute env).2.1 = true := by
  simp [deleteRoute, hfind, hblob, hdb]

/-- Witness for C9 at a concrete environment whose blob deletion fails. -/
theorem c9_blob_failure_does_not_block_delete_witness :
    delEnvBlobFail.findOne = some doc0 ∧
    ((deleteRoute delEnvBlobFail).1 = { status := 200, success := true } ∧
     (deleteRoute delEnvBlobFail).2.1 = true) :=
  ⟨rfl, c9_blob_failure_does_not_block_delete delEnvBlobFail doc0 "cloud down" rfl rfl rfl⟩

/-- Claim C6: on every successful extraction (extraction, document finalize
and transaction save all succeed), exactly one Transaction is created for the
Document — the store grows by exactly the candidate, whose back-reference is
this document — and the `processed` document save is persisted strictly before
the transaction save in the event trace (positions 0 and 1). -/
theorem c6_processed_before_transaction (env : PipelineEnv) (userId : Nat)
    (s : RunState) (ed : ExtractedData)
    (h1 : env.processDocument = .ok ed)
    (h2 : env.docSave = .ok ())
    (h3 : env.txSave = .ok ())
    (htr : s.trace = []) :
    (backgroundProcess env userId s).transactions =
      s.transactions ++ [mkTransaction s userId ed] ∧
    (mkTransaction s userId ed).document = some s.docMem.id ∧
    (backgroundProcess env userId s).trace.take 2 =
      [Event.docSave DocStatus.processed, Event.txSave] := by
  refine ⟨?_, rfl, ?_⟩ <;>
  · cases hft : env.findTransactions with
    | error m =>
      cases hfs : env.failSave <;>
        simp [backgroundProcess, processDocumentWithAI, tryBody, saveDocument,
          mkTransaction, h1, h2, h3, hft, hfs, htr]
    | ok u =>
      cases hda : env.detectAnomalies with
      | error m =>
        cases hfs : env.failSave <;>
          simp [backgroundProcess, processDocumentWithAI, tryBody, saveDocument,
            mkTransaction, h1, h2, h3, hft, hda, hfs, htr]
      | ok o =>
        cases o with
        | none =>
          simp [backgroundProcess, processDocumentWithAI, tryBody, saveDocument,
            mkTransaction, h1, h2, h3, hft, hda, htr]
        | some r =>
          cases hr : r.isAnomaly with
          | false =>
            simp [backgroundProcess, processDocumentWithAI, tryBody, saveDocument,
              mkTransaction, h1, h2, h3, hft, hda, hr, htr]
          | true =>
            cases has : env.anomalySave with
            | error m =>
              cases hfs : env.failSave <;>
                simp [backgroundProcess, processDocumentWithAI, tryBody, saveDocument,
                  mkTransaction, h1, h2, h3, hft, hda, hr, has, hfs, htr]
            | ok u2 =>
              simp [backgroundProcess, processDocumentWithAI, tryBody, saveDocument,
                mkTransaction, h1, h2, h3, hft, hda, hr, has, htr]

/-- Witness for C6 at a concrete all-success environment. -/
theorem c6_processed_before_transaction_witness :
    envPositive.processDocument = .ok edSample ∧
    ((backgroundProcess envPositive 7 state0).transactions =
       state0.transactions ++ [mkTransaction state0 7 edSample] ∧
     (mkTransaction state0 7 edSample).document = some state0.docMem.id ∧
     (backgroundProcess envPositive 7 state0).trace.take 2 =
       [Event.docSave DocStatus.processed, Event.txSave]) :=
  ⟨rfl, c6_processed_before_transaction envPositive 7 state0 edSample rfl rfl rfl rfl⟩

/-- Claim C10: the history window handed to the scorer is fetched after the
candidate Transaction is persisted (trace positions 0–2 are the `processed`
document save, the transaction save, then the history fetch), it is exactly
the result of a query filtered only by user id with limit 100 and no ordering
or exclusion clause over the store that already contains the candidate
(`findUserLimit100`), and hence it can include the candidate itself: whenever
the user has fewer than 100 prior transactions, the candidate is a member. -/
theorem c10_history_window_includes_candidate (env : PipelineEnv) (userId : Nat)
    (s : RunState) (ed : ExtractedData)
    (h1 : env.processDocument = .ok ed)
    (h2 : env.docSave = .ok ())
    (h3 : env.txSave = .ok ())
    (h4 : env.findTransactions = .ok ())
    (htr : s.trace = []) :
    (backgroundProcess env userId s).history =
      some (findUserLimit100 (s.transactions ++ [mkTransaction s userId ed]) userId) ∧
    (backgroundProcess env userId s).trace.take 3 =
      [Event.docSave DocStatus.processed, Event.txSave, Event.historyFetch] ∧
    ((s.transactions.filter (fun t => t.user == userId)).length < 100 →
      mkTransaction s userId ed ∈
        findUserLimit100 (s.transactions ++ [mkTransaction s userId ed]) userId) := by
  have hmem : (s.transactions.filter (fun t => t.user == userId)).length < 100 →
      mkTransaction s userId ed ∈
        findUserLimit100 (s.transactions ++ [mkTransaction s userId ed]) userId := by
    intro hlt
    have hsing : List.filter (fun t => t.user == userId) [mkTransaction s userId ed] =
        [mkTransaction s userId ed] := by
      simp [mkTransaction]
    rw [findUserLimit100, List.filter_append, hsing, List.take_of_length_le]
    · exact List.mem_append.mpr (Or.inr (List.mem_singleton.mpr rfl))
    · rw [List.length_append, List.length_singleton]
      omega
  refine ⟨?_, ?_, hmem⟩
  all_goals
  · cases hda : env.detectAnomalies with
    | error m =>
      cases hfs : env.failSave <;>
        simp [backgroundProcess, processDocumentWithAI, tryBody, saveDocument,
          findUserLimit100, mkTransaction, h1, h2, h3, h4, hda, hfs, htr]
    | ok o =>
      cases o with
      | none =>
        simp [backgroundProcess, processDocumentWithAI, tryBody, saveDocument,
          findUserLimit100, mkTransaction, h1, h2, h3, h4, hda, htr]
      | some r =>
        cases hr : r.isAnomaly with
        | false =>
          simp [backgroundProcess, processDocumentWithAI, tryBody, saveDocument,
            findUserLimit100, mkTransaction, h1, h2, h3, h4, hda, hr, htr]
        | true =>
          cases has : env.anomalySave with
          | error m =>
            cases hfs : env.failSave <;>
              simp [backgroundProcess, processDocumentWithAI, tryBody, saveDocument,
                findUserLimit100, mkTransaction, h1, h2, h3, h4, hda, hr, has, hfs, htr]
          | ok u2 =>
            simp [backgroundProcess, processDocumentWithAI, tryBody, saveDocument,
              findUserLimit100, mkTransaction, h1, h2, h3, h4, hda, hr, has, htr]

/-- Witness for C10 at a concrete all-success environment with no prior
transactions: the candidate itself appears in the scorer's window. -/
theorem c10_history_window_includes_candidate_witness :
    (state0.transactions.filter (fun t => t.user == 7)).length < 100 ∧
    ((backgroundProcess envPositive 7 state0).history =
       some (findUserLimit100 (state0.transactions ++ [mkTransaction state0 7 edSample]) 7) ∧
     (backgroundProcess envPositive 7 state0).trace.take 3 =
       [Event.docSave DocStatus.processed, Event.txSave, Event.historyFetch] ∧
     mkTransaction state0 7 edSample ∈
       findUserLimit100 (state0.transactions ++ [mkTransaction state0 7 edSample]) 7) := by
  have h := c10_history_window_includes_candidate envPositive 7 state0 edSample
    rfl rfl rfl rfl rfl
  exact ⟨by decide, h.1, h.2.1, h.2.2 (by decide)⟩

/-- Claim C5: an Anomaly is created iff the scorer's result is present and
positive.  First part: when the scorer never signals a positive verdict
(`isAnomaly = false`, a null/absent result, or a scorer failure), no run
changes the anomaly store, regardless of the numeric risk score.  Second
part: when the run reaches scoring, the verdict is positive and the anomaly
save succeeds, exactly one Anomaly is appended, with status `new`, linked to
the candidate Transaction's id. -/
theorem c5_anomaly_iff_positive_verdict (env : PipelineEnv) (userId : Nat)
    (s : RunState) :
    ((∀ r, env.detectAnomalies = Except.ok (some r) → r.isAnomaly = false) →
      (backgroundProcess env userId s).anomalies = s.anomalies) ∧
    (∀ ed r, env.processDocument = Except.ok ed → env.docSave = Except.ok () →
      env.txSave = Except.ok () → env.findTransactions = Except.ok () →
      env.detectAnomalies = Except.ok (some r) → r.isAnomaly = true →
      env.anomalySave = Except.ok () →
      ∃ a, (backgroundProcess env userId s).anomalies = s.anomalies ++ [a] ∧
        a.status = "new" ∧ a.transaction = (mkTransaction s userId ed).id) := by
  constructor
  · intro hneg
    cases hpd : env.processDocument with
    | error m =>
      cases hfs : env.failSave <;>
        simp [backgroundProcess, processDocumentWithAI, tryBody, saveDocument, hpd, hfs]
    | ok ed =>
      cases hds : env.docSave with
      | error m =>
        cases hfs : env.failSave <;>
          simp [backgroundProcess, processDocumentWithAI, tryBody, saveDocument,
            hpd, hds, hfs]
      | ok u =>
        cases hts : env.txSave with
        | error m =>
          cases hfs : env.failSave <;>
            simp [backgroundProcess, processDocumentWithAI, tryBody, saveDocument,
              hpd, hds, hts, hfs]
        | ok u2 =>
          cases hft : env.findTransactions with
          | error m =>
            cases hfs : env.failSave <;>
              simp [backgroundProcess, processDocumentWithAI, tryBody, saveDocument,
                hpd, hds, hts, hft, hfs]
          | ok u3 =>
            cases hda : env.detectAnomalies with
            | error m =>
              cases hfs : env.failSave <;>
                simp [backgroundProcess, processDocumentWithAI, tryBody, saveDocument,
                  hpd, hds, hts, hft, hda, hfs]
            | ok o =>
              cases o with
              | none =>
                simp [backgroundProcess, processDocumentWithAI, tryBody, saveDocument,
                  hpd, hds, hts, hft, hda]
              | some r =>
                simp [backgroundProcess, processDocumentWithAI, tryBody, saveDocument,
                  hpd, hds, hts, hft, hda, hneg r hda]
  · intro ed r h1 h2 h3 h4 h5 h6 h7
    refine ⟨mkAnomaly userId (mkTransaction s userId ed).id r
      (if jsTruthy env.geminiApiKey then "gemini" else "openai"), ?_, rfl, rfl⟩
    simp [backgroundProcess, processDocumentWithAI, tryBody, saveDocument,
      mkTransaction, mkAnomaly, h1, h2, h3, h4, h5, h6, h7]

/-- Witness for C5: with a null scorer result no anomaly is stored; with a
positive verdict exactly one `new` anomaly is stored. -/
theorem c5_anomaly_iff_positive_verdict_witness :
    (backgroundProcess envNullVerdict 7 state0).anomalies = state0.anomalies ∧
    (∃ a, (backgroundProcess envPositive 7 state0).anomalies = state0.anomalies ++ [a] ∧
      a.status = "new" ∧ a.transaction = (mkTransaction state0 7 edSample).id) :=
  ⟨(c5_anomaly_iff_positive_verdict envNullVerdict 7 state0).1
      (fun r h => by simp [envNullVerdict, envPositive] at h),
   (c5_anomaly_iff_positive_verdict envPositive 7 state0).2 edSample resultPositive
      rfl rfl rfl rfl rfl rfl rfl⟩

/-- Counterexample to C2 as stated: when the scorer call rejects after the
transaction save, the Document ends `failed` (with the error captured), yet
exactly one persisted Transaction is linked to it — so `status = failed` does
not imply that no Transaction exists for the document. -/
theorem c2_counterexample_failed_document_with_transaction :
    (backgroundProcess envScoreFail 7 state0).docDb.status = DocStatus.failed ∧
    (backgroundProcess envScoreFail 7 state0).docDb.extractedData =
      some (ExtractedPayload.failure "scorer down") ∧
    ((backgroundProcess envScoreFail 7 state0).transactions.filter
      (fun t => t.document == some 1)).length = 1 := by
  refine ⟨rfl, rfl, rfl⟩

/-- Claim C2 as amended: a failure at extraction or at the document or
transaction persistence stages (all strictly before the transaction is
stored) leaves the Document `failed`, with the raised error's message
captured, and creates no Transaction; failures at later stages (history
fetch, scoring, anomaly persistence) still end in `failed` but occur after
the Transaction was persisted. -/
theorem c2_amended_failure_before_tx_save (env : PipelineEnv) (userId : Nat)
    (s : RunState)
    (hfail : isErr env.processDocument = true ∨ isErr env.docSave = true ∨
      isErr env.txSave = true)
    (hfs : env.failSave = .ok ()) :
    (backgroundProcess env userId s).docDb.status = DocStatus.failed ∧
    (backgroundProcess env userId s).transactions = s.transactions ∧
    ∃ m, (backgroundProcess env userId s).docDb.extractedData =
      some (ExtractedPayload.failure m) := by
  cases hpd : env.processDocument with
  | error m =>
    simp [backgroundProcess, processDocumentWithAI, tryBody, saveDocument, hpd, hfs]
  | ok ed =>
    cases hds : env.docSave with
    | error m =>
      simp [backgroundProcess, processDocumentWithAI, tryBody, saveDocument,
        hpd, hds, hfs]
    | ok u =>
      cases hts : env.txSave with
      | error m =>
        simp [backgroundProcess, processDocumentWithAI, tryBody, saveDocument,
          hpd, hds, hts, hfs]
      | ok u2 =>
        rw [hpd, hds, hts] at hfail
        simp [isErr] at hfail

/-- Witness for the amended C2 at a concrete extraction-failure environment. -/
theorem c2_amended_failure_before_tx_save_witness :
    isErr envExtractFail.processDocument = true ∧
    ((backgroundProcess envExtractFail 7 state0).docDb.status = DocStatus.failed ∧
     (backgroundProcess envExtractFail 7 state0).transactions = state0.transactions ∧
     ∃ m, (backgroundProcess envExtractFail 7 state0).docDb.extractedData =
       some (ExtractedPayload.failure m)) :=
  ⟨rfl, c2_amended_failure_before_tx_save envExtractFail 7 state0 (Or.inl rfl) rfl⟩

/-- The try block saves the document either not at all or exactly once, in
status `processed`. -/
theorem tryBody_docSaves (env : PipelineEnv) (userId : Nat) (s : RunState) :
    docSaves (tryBody env userId s).1.trace = docSaves s.trace ∨
    docSaves (tryBody env userId s).1.trace =
      docSaves s.trace ++ [DocStatus.processed] := by
  cases hpd : env.processDocument with
  | error m => simp [tryBody, hpd]
  | ok ed =>
    cases hds : env.docSave with
    | error m => simp [tryBody, hpd, hds]
    | ok u =>
      cases hts : env.txSave with
      | error m => simp [tryBody, saveDocument, docSaves, hpd, hds, hts]
      | ok u2 =>
        cases hft : env.findTransactions with
        | error m => simp [tryBody, saveDocument, docSaves, hpd, hds, hts, hft]
        | ok u3 =>
          cases hda : env.detectAnomalies with
          | error m => simp [tryBody, saveDocument, docSaves, hpd, hds, hts, hft, hda]
          | ok o =>
            cases o with
            | none => simp [tryBody, saveDocument, docSaves, hpd, hds, hts, hft, hda]
            | some r =>
              cases hr : r.isAnomaly with
              | false =>
                simp [tryBody, saveDocument, docSaves, hpd, hds, hts, hft, hda, hr]
              | true =>
                cases has : env.anomalySave with
                | error m =>
                  simp [tryBody, saveDocument, docSaves, hpd, hds, hts, hft, hda, hr, has]
                | ok u4 =>
                  simp [tryBody, saveDocument, docSaves, hpd, hds, hts, hft, hda, hr, has]

/-- The catch block adds either nothing or exactly one further document save,
in status `failed`. -/
theorem processDocumentWithAI_docSaves (env : PipelineEnv) (userId : Nat)
    (s : RunState) :
    docSaves (backgroundProcess env userId s).trace =
      docSaves (tryBody env userId s).1.trace ∨
    docSaves (backgroundProcess env userId s).trace =
      docSaves (tryBody env userId s).1.trace ++ [DocStatus.failed] := by
  rcases h : tryBody env userId s with ⟨s', e⟩
  cases e with
  | none => simp [backgroundProcess, processDocumentWithAI, h]
  | some m =>
    cases hfs : env.failSave <;>
      simp [backgroundProcess, processDocumentWithAI, saveDocument, docSaves, h, hfs]

/-- Counterexample to C3 as stated: with an all-success run up to a scorer
failure, the orchestrator persists the Document twice — first `processed`,
then `failed` — so a Document that reached the terminal state `processed`
later transitions to `failed`. -/
theorem c3_counterexample_processed_then_failed :
    docSaves (backgroundProcess envScoreFail 7 state0).trace =
      [DocStatus.processed, DocStatus.failed] ∧
    (backgroundProcess envScoreFail 7 state0).docDb.status = DocStatus.failed := by
  refine ⟨rfl, rfl⟩

/-- Claim C3 as amended: in any run the orchestrator persists the Document's
status at most twice: never, once (`processed` on a clean run, or `failed` on
an early failure), or — when a stage after the document finalize fails —
twice, `processed` then `failed`.  `failed` is never transitioned out of, but
`processed` is not terminal when a later stage fails. -/
theorem c3_amended_status_save_sequences (env : PipelineEnv) (userId : Nat)
    (s : RunState) (htr : s.trace = []) :
    docSaves (backgroundProcess env userId s).trace = [] ∨
    docSaves (backgroundProcess env userId s).trace = [DocStatus.processed] ∨
    docSaves (backgroundProcess env userId s).trace = [DocStatus.failed] ∨
    docSaves (backgroundProcess env userId s).trace =
      [DocStatus.processed, DocStatus.failed] := by
  have h1 := tryBody_docSaves env userId s
  have h2 := processDocumentWithAI_docSaves env userId s
  rw [htr, show docSaves ([] : List Event) = [] from rfl, List.nil_append] at h1
  rcases h1 with h1 | h1 <;> rcases h2 with h2 | h2 <;>
    simp only [h1, List.nil_append] at h2 <;> simp [h2]

/-- Witness for the amended C3 at a concrete all-success environment. -/
theorem c3_amended_status_save_sequences_witness :
    state0.trace = [] ∧
    (docSaves (backgroundProcess envPositive 7 state0).trace = [] ∨
     docSaves (backgroundProcess envPositive 7 state0).trace = [DocStatus.processed] ∨
     docSaves (backgroundProcess envPositive 7 state0).trace = [DocStatus.failed] ∨
     docSaves (backgroundProcess envPositive 7 state0).trace =
       [DocStatus.processed, DocStatus.failed]) :=
  ⟨rfl, c3_amended_status_save_sequences envPositive 7 state0 rfl⟩

/-- Counterexample to C7 as stated: with 100 pre-existing transactions of the
same user, the window handed to the scorer is the first 100 matching records
in store order — it omits the candidate, the user's most recently persisted
transaction, and so is not the user's most recent transactions (the
spec-modelled most-recent window differs). -/
theorem c7_counterexample_window_not_most_recent :
    (backgroundProcess envPositive 7 stateMany).history = some priors100 ∧
    mkTransaction stateMany 7 edSample ∉ priors100 ∧
    mkTransaction stateMany 7 edSample ∈
      (backgroundProcess envPositive 7 stateMany).transactions ∧
    priors100 ≠
      specMostRecentWindow (backgroundProcess envPositive 7 stateMany).transactions
        7 100 := by
  refine ⟨rfl, by decide, by decide, by decide⟩

/-- Claim C7 as amended: the history window handed to the scorer holds at
most 100 Transactions, every one of them belongs to the same user as the
candidate, and it is the first 100 matching records in store order (the query
has no ordering), not necessarily the user's most recent Transactions. -/
theorem c7_amended_window_bounded_same_user (env : PipelineEnv) (userId : Nat)
    (s : RunState) (ed : ExtractedData)
    (h1 : env.processDocument = .ok ed)
    (h2 : env.docSave = .ok ())
    (h3 : env.txSave = .ok ())
    (h4 : env.findTransactions = .ok ()) :
    ∃ w, (backgroundProcess env userId s).history = some w ∧
      w.length ≤ 100 ∧
      (∀ t ∈ w, t.user = userId) ∧
      w = findUserLimit100 (backgroundProcess env userId s).transactions userId := by
  have key : (backgroundProcess env userId s).transactions =
      s.transactions ++ [mkTransaction s userId ed] ∧
      (backgroundProcess env userId s).history =
        some (findUserLimit100 (s.transactions ++ [mkTransaction s userId ed]) userId) := by
    cases hda : env.detectAnomalies with
    | error m =>
      cases hfs : env.failSave <;>
        simp [backgroundProcess, processDocumentWithAI, tryBody, saveDocument,
          findUserLimit100, mkTransaction, h1, h2, h3, h4, hda, hfs]
    | ok o =>
      cases o with
      | none =>
        simp [backgroundProcess, processDocumentWithAI, tryBody, saveDocument,
          findUserLimit100, mkTransaction, h1, h2, h3, h4, hda]
      | some r =>
        cases hr : r.isAnomaly with
        | false =>
          simp [backgroundProcess, processDocumentWithAI, tryBody, saveDocument,
            findUserLimit100, mkTransaction, h1, h2, h3, h4, hda, hr]
        | true =>
          cases has : env.anomalySave with
          | error m =>
            cases hfs : env.failSave <;>
              simp [backgroundProcess, processDocumentWithAI, tryBody, saveDocument,
                findUserLimit100, mkTransaction, h1, h2, h3, h4, hda, hr, has, hfs]
          | ok u2 =>
            simp [backgroundProcess, processDocumentWithAI, tryBody, saveDocument,
              findUserLimit100, mkTransaction, h1, h2, h3, h4, hda, hr, has]
  refine ⟨findUserLimit100 (s.transactions ++ [mkTransaction s userId ed]) userId,
    key.2, List.length_take_le _ _, fun t ht => ?_, by rw [key.1]⟩
  have hmem : t ∈ (s.transactions ++ [mkTransaction s userId ed]).filter
      (fun t => t.user == userId) := List.mem_of_mem_take ht
  exact eq_of_beq ((List.mem_filter.mp hmem).2)

/-- Witness for the amended C7 at a concrete all-success environment. -/
theorem c7_amended_window_bounded_same_user_witness :
    envPositive.processDocument = .ok edSample ∧
    ∃ w, (backgroundProcess envPositive 7 state0).history = some w ∧
      w.length ≤ 100 ∧
      (∀ t ∈ w, t.user = 7) ∧
      w = findUserLimit100 (backgroundProcess envPositive 7 state0).transactions 7 :=
  ⟨rfl, c7_amended_window_bounded_same_user envPositive 7 state0 edSample rfl rfl rfl rfl⟩

/-- Counterexample to C8 as stated: when the extraction provider supplies the
empty string as the transaction type, the created Transaction's type is
`expense`, not the supplied value — `extractedData.type || 'expense'` treats
every falsy value as absent. -/
theorem c8_counterexample_empty_type_defaults :
    edEmptyType.type = some "" ∧
    ("" : String) ≠ "expense" ∧
    (backgroundProcess envEmptyType 7 state0).transactions.map (fun t => t.type) =
      ["expense"] := by
  refine ⟨rfl, by decide, rfl⟩

/-- Claim C8 as amended: the created Transaction's type is
`extractedData.type || 'expense'`: it equals the provider-supplied type
whenever that type is present and non-empty, and defaults to `expense` when
the provider supplies none or supplies the (falsy) empty string. -/
theorem c8_amended_type_default (env : PipelineEnv) (userId : Nat)
    (s : RunState) (ed : ExtractedData)
    (h1 : env.processDocument = .ok ed)
    (h2 : env.docSave = .ok ())
    (h3 : env.txSave = .ok ()) :
    (backgroundProcess env userId s).transactions =
      s.transactions ++ [mkTransaction s userId ed] ∧
    (mkTransaction s userId ed).type = jsOrString ed.type "expense" ∧
    (∀ t, ed.type = some t → t ≠ "" → (mkTransaction s userId ed).type = t) ∧
    ((ed.type = none ∨ ed.type = some "") →
      (mkTransaction s userId ed).type = "expense") := by
  refine ⟨?_, rfl, ?_, ?_⟩
  · cases hft : env.findTransactions with
    | error m =>
      cases hfs : env.failSave <;>
        simp [backgroundProcess, processDocumentWithAI, tryBody, saveDocument,
          mkTransaction, h1, h2, h3, hft, hfs]
    | ok u =>
      cases hda : env.detectAnomalies with
      | error m =>
        cases hfs : env.failSave <;>
          simp [backgroundProcess, processDocumentWithAI, tryBody, saveDocument,
            mkTransaction, h1, h2, h3, hft, hda, hfs]
      | ok o =>
        cases o with
        | none =>
          simp [backgroundProcess, processDocumentWithAI, tryBody, saveDocument,
            mkTransaction, h1, h2, h3, hft, hda]
        | some r =>
          cases hr : r.isAnomaly with
          | false =>
            simp [backgroundProcess, processDocumentWithAI, tryBody, saveDocument,
              mkTransaction, h1, h2, h3, hft, hda, hr]
          | true =>
            cases has : env.anomalySave with
            | error m =>
              cases hfs : env.failSave <;>
                simp [backgroundProcess, processDocumentWithAI, tryBody, saveDocument,
                  mkTransaction, h1, h2, h3, hft, hda, hr, has, hfs]
            | ok u2 =>
              simp [backgroundProcess, processDocumentWithAI, tryBody, saveDocument,
                mkTransaction, h1, h2, h3, hft, hda, hr, has]
  · intro t ht hne
    simp [mkTransaction, jsOrString, ht, hne]
  · intro h
    rcases h with h | h <;> simp [mkTransaction, jsOrString, h]

/-- Witness for the amended C8: with no supplied type the created transaction
is an `expense`. -/
theorem c8_amended_type_default_witness :
    edSample.type = none ∧
    ((backgroundProcess envPositive 7 state0).transactions =
       state0.transactions ++ [mkTransaction state0 7 edSample] ∧
     (mkTransaction state0 7 edSample).type = "expense") := by
  have h := c8_amended_type_default envPositive 7 state0 edSample rfl rfl rfl
  exact ⟨rfl, h.1, h.2.2.2 (Or.inl rfl)⟩

end ExpenseTracker
